import Mathlib

/-!
# Verification of `bin/mcp-postgres.js`

The launcher is a straight-line Node.js script.  It is embedded as a function
from the things the script observes (the outcome of each `execSync` probe, the
process `argv`, the process environment, the resolved server path and the
events emitted by the child process) to the ordered trace of the effects the
script performs (`execSync`, `console.error`, `spawn`, `process.exit`).

`process.exit` ends the run: the trace of a run is the trace of the script text
cut after the first `process.exit` call.
-/

namespace McpPostgres

/-- The process environment block, as key/value pairs. -/
abbrev Env := List (String × String)

/-- The `stdio` option of `execSync` and `spawn`. -/
inductive Stdio where
  | ignore
  | inherit
  | pipe
  deriving DecidableEq, Repr

/-- Events a `ChildProcess` emits to the two registered listeners.
`close` carries `(code, signal)`: `code` is `null` when the child was ended by
a signal.  `error` carries the `Error` object, of which only `message` is read. -/
inductive ChildEvent where
  | close (code : Option Int) (signal : Option String)
  | error (message : String)
  deriving DecidableEq, Repr

/-- Effects performed by the script, in program order.  The command of `spawn`
is the value of the variable `pythonCmd`, which is `null` or a string; the
argument of `exit` is the value handed to `process.exit`, `null` or an
integer. -/
inductive Effect where
  | execSync (command : String) (stdio : Stdio)
  | consoleError (text : String)
  | spawn (command : Option String) (args : List String) (stdio : Stdio) (env : Env)
  | exit (code : Option Int)
  deriving DecidableEq, Repr

/-- Everything the script observes during one run. -/
structure World where
  /-- Outcome of `execSync(command, ...)`: `true` when it returns, `false` when it throws. -/
  execSync : String → Bool
  /-- Value of `process.argv`. -/
  argv : List String
  /-- Value of `process.env`. -/
  env : Env
  /-- Value of `path.join(__dirname, '..', 'server.py')`. -/
  serverPath : String
  /-- Events emitted by the spawned child, in order of emission. -/
  events : List ChildEvent

/-- Line 10: `const pythonCmds = ['python3', 'python']`. -/
def pythonCmds : List String := ["python3", "python"]

/-- Line 15: the template string `${cmd} --version`. -/
def versionCommand (cmd : String) : String := cmd ++ " --version"

/-- Line 24: the text written when no interpreter is found. -/
def notFoundMessage : String :=
  "Error: Python not found. Please install Python 3.12 or later."

/-- Line 39: the template string `Failed to start python process: ${err.message}`. -/
def spawnFailureMessage (message : String) : String :=
  "Failed to start python process: " ++ message

/-- JavaScript `!v` for a value that is `null` or a string: `null` and the
empty string are falsy, every other string is truthy. -/
def jsNot : Option String → Bool
  | none => true
  | some s => s == ""

/-- Lines 11-21: the probe loop.  Returns the final value of `pythonCmd`
together with the `execSync` calls made, in order.  A probe that returns
assigns `pythonCmd` and breaks; a probe that throws is caught and the loop
goes on with the next candidate. -/
def probeLoop (execSync : String → Bool) : List String → Option String × List Effect
  | [] => (none, [])
  | cmd :: rest =>
    if execSync (versionCommand cmd) then
      (some cmd, [Effect.execSync (versionCommand cmd) Stdio.ignore])
    else
      ((probeLoop execSync rest).1,
        Effect.execSync (versionCommand cmd) Stdio.ignore :: (probeLoop execSync rest).2)

/-- Lines 34-36: the `close` listener. -/
def onClose (code : Option Int) : List Effect :=
  [Effect.exit code]

/-- Lines 38-41: the `error` listener. -/
def onError (message : String) : List Effect :=
  [Effect.consoleError (spawnFailureMessage message), Effect.exit (some 1)]

/-- Delivery of one child event to the listener registered for it. -/
def handle : ChildEvent → List Effect
  | ChildEvent.close code _ => onClose code
  | ChildEvent.error message => onError message

/-- Line 28: `[serverPath, ...process.argv.slice(2)]`. -/
def spawnArgs (w : World) : List String :=
  w.serverPath :: w.argv.drop 2

/-- The effects of the script text in program order, as if `process.exit`
returned: probes, the not-found branch when `!pythonCmd`, the `spawn` call, and
the listeners run on each child event. -/
def script (w : World) : List Effect :=
  let r := probeLoop w.execSync pythonCmds
  r.2
    ++ (if jsNot r.1 then [Effect.consoleError notFoundMessage, Effect.exit (some 1)] else [])
    ++ [Effect.spawn r.1 (spawnArgs w) Stdio.inherit w.env]
    ++ w.events.flatMap handle

/-- Cuts a trace after its first `process.exit`: nothing runs after it. -/
def untilExit : List Effect → List Effect
  | [] => []
  | Effect.exit code :: _ => [Effect.exit code]
  | e :: rest => e :: untilExit rest

/-- The trace of one run of the launcher. -/
def run (w : World) : List Effect :=
  untilExit (script w)

/-! ## Observations on a trace -/

/-- The value of `pythonCmd` after the probe loop. -/
def selected (w : World) : Option String :=
  (probeLoop w.execSync pythonCmds).1

/-- The command strings handed to `execSync`, in order. -/
def probed : List Effect → List String
  | [] => []
  | Effect.execSync command _ :: rest => command :: probed rest
  | _ :: rest => probed rest

/-- The texts written with `console.error`, in order. -/
def stderrLines : List Effect → List String
  | [] => []
  | Effect.consoleError text :: rest => text :: stderrLines rest
  | _ :: rest => stderrLines rest

/-- The `spawn` calls, in order. -/
def spawns : List Effect → List Effect
  | [] => []
  | Effect.spawn command args stdio env :: rest =>
    Effect.spawn command args stdio env :: spawns rest
  | _ :: rest => spawns rest

/-- The argument of the first `process.exit` call, if there is one. -/
def exitCall : List Effect → Option (Option Int)
  | [] => none
  | Effect.exit code :: _ => some code
  | _ :: rest => exitCall rest

/-- Exit status of the Node.js process for `process.exit(code)` when
`process.exitCode` was never assigned: `null` gives `0`, an integer gives its
low eight bits. -/
def exitStatusOf : Option Int → Nat
  | none => 0
  | some n => (n % 256).toNat

/-- Exit status of a run, `none` while the launcher has not exited. -/
def exitStatus (trace : List Effect) : Option Nat :=
  (exitCall trace).map exitStatusOf

/-- Text containment: `needle` occurs as a contiguous run of characters of `text`. -/
def containsText (text needle : String) : Prop :=
  needle.data <:+: text.data

instance (text needle : String) : Decidable (containsText text needle) :=
  inferInstanceAs (Decidable (needle.data <:+: text.data))

/-- A world for examples: probe outcomes given per candidate. -/
def exampleWorld (python3Ok pythonOk : Bool) (argv : List String) (env : Env)
    (events : List ChildEvent) : World where
  execSync := fun command =>
    if command = "python3 --version" then python3Ok
    else if command = "python --version" then pythonOk
    else false
  argv := argv
  env := env
  serverPath := "/opt/mcp/server.py"
  events := events

/-- Only `python` answers; two arguments are passed; the child exits with code 3. -/
def worldPython : World :=
  exampleWorld false true ["node", "/usr/bin/mcp-postgres", "--flag", "value"]
    [("PATH", "/usr/bin"), ("PGHOST", "db")] [ChildEvent.close (some 3) none]

/-- As `worldPython`, with another environment. -/
def worldPythonOtherEnv : World :=
  exampleWorld false true ["node", "/usr/bin/mcp-postgres", "--flag", "value"]
    [("PATH", "/opt/bin")] [ChildEvent.close (some 3) none]

/-- Both candidates answer; nothing is passed; the child is ended by a signal. -/
def worldSignal : World :=
  exampleWorld true true ["node", "/usr/bin/mcp-postgres"] [("PATH", "/usr/bin")]
    [ChildEvent.close none (some "SIGTERM")]

/-- Only `python3` answers, and creating the child then fails. -/
def worldSpawnError : World :=
  exampleWorld true false ["node", "/usr/bin/mcp-postgres"] [("PATH", "/usr/bin")]
    [ChildEvent.error "spawn python3 ENOENT", ChildEvent.close (some (-2)) none]

/-- No candidate answers. -/
def worldNoPython : World :=
  exampleWorld false false ["node", "/usr/bin/mcp-postgres", "--flag"] [("PATH", "/usr/bin")] []

/-- Blanks the environment of every `spawn` call, leaving all else of the trace. -/
def eraseEnv : Effect → Effect
  | Effect.spawn command args stdio _ => Effect.spawn command args stdio []
  | e => e

/-- What the registered listeners do with the events of the child: the first
event delivered ends the process. -/
def afterSpawn : List ChildEvent → List Effect
  | [] => []
  | ev :: _ => handle ev

/-- The candidates up to and including the first one that satisfies `ok`
(all of them when none does). -/
def uptoFirst (ok : String → Bool) : List String → List String
  | [] => []
  | cmd :: rest => if ok cmd then [cmd] else cmd :: uptoFirst ok rest

/-! ## The probe loop over an arbitrary candidate list -/

theorem probeLoop_fst (execSync : String → Bool) (cmds : List String) :
    (probeLoop execSync cmds).1 = cmds.find? (fun cmd => execSync (versionCommand cmd)) := by
  induction cmds with
  | nil => rfl
  | cons cmd rest ih =>
    by_cases h : execSync (versionCommand cmd) = true
    · simp [probeLoop, h, List.find?_cons]
    · simp [probeLoop, h, List.find?_cons, ih]

theorem probed_probeLoop (execSync : String → Bool) (cmds : List String) :
    probed (probeLoop execSync cmds).2 =
      (uptoFirst (fun cmd => execSync (versionCommand cmd)) cmds).map versionCommand := by
  induction cmds with
  | nil => rfl
  | cons cmd rest ih =>
    by_cases h : execSync (versionCommand cmd) = true
    · simp [probeLoop, h, uptoFirst, probed]
    · simp [probeLoop, h, uptoFirst, probed, ih]

/-! ## The three shapes of a run -/

theorem untilExit_events (evs : List ChildEvent) :
    untilExit (evs.flatMap handle) = afterSpawn evs := by
  cases evs with
  | nil => rfl
  | cons ev rest =>
    cases ev <;> simp [handle, onClose, onError, untilExit, afterSpawn]

theorem run_python3 (w : World) (h3 : w.execSync (versionCommand "python3") = true) :
    run w =
      [Effect.execSync (versionCommand "python3") Stdio.ignore,
       Effect.spawn (some "python3") (spawnArgs w) Stdio.inherit w.env]
        ++ afterSpawn w.events := by
  have hn : jsNot (some "python3") = false := by decide
  simp [run, script, pythonCmds, probeLoop, h3, hn, untilExit, untilExit_events]

theorem run_python (w : World) (h3 : w.execSync (versionCommand "python3") = false)
    (h : w.execSync (versionCommand "python") = true) :
    run w =
      [Effect.execSync (versionCommand "python3") Stdio.ignore,
       Effect.execSync (versionCommand "python") Stdio.ignore,
       Effect.spawn (some "python") (spawnArgs w) Stdio.inherit w.env]
        ++ afterSpawn w.events := by
  have hn : jsNot (some "python") = false := by decide
  simp [run, script, pythonCmds, probeLoop, h3, h, hn, untilExit, untilExit_events]

theorem run_notFound (w : World) (h3 : w.execSync (versionCommand "python3") = false)
    (h : w.execSync (versionCommand "python") = false) :
    run w =
      [Effect.execSync (versionCommand "python3") Stdio.ignore,
       Effect.execSync (versionCommand "python") Stdio.ignore,
       Effect.consoleError notFoundMessage,
       Effect.exit (some 1)] := by
  simp [run, script, pythonCmds, probeLoop, h3, h, jsNot, untilExit]

theorem selected_python3 (w : World) (h3 : w.execSync (versionCommand "python3") = true) :
    selected w = some "python3" := by
  simp [selected, pythonCmds, probeLoop, h3]

theorem selected_python (w : World) (h3 : w.execSync (versionCommand "python3") = false)
    (h : w.execSync (versionCommand "python") = true) :
    selected w = some "python" := by
  simp [selected, pythonCmds, probeLoop, h3, h]

theorem selected_none (w : World) (h3 : w.execSync (versionCommand "python3") = false)
    (h : w.execSync (versionCommand "python") = false) :
    selected w = none := by
  simp [selected, pythonCmds, probeLoop, h3, h]

/-- Every run has one of three shapes, decided by the two probe outcomes. -/
theorem run_cases (w : World) :
    (w.execSync (versionCommand "python3") = true ∧ selected w = some "python3" ∧
      run w = Effect.execSync (versionCommand "python3") Stdio.ignore ::
        Effect.spawn (some "python3") (spawnArgs w) Stdio.inherit w.env ::
        afterSpawn w.events) ∨
    (w.execSync (versionCommand "python3") = false ∧
      w.execSync (versionCommand "python") = true ∧ selected w = some "python" ∧
      run w = Effect.execSync (versionCommand "python3") Stdio.ignore ::
        Effect.execSync (versionCommand "python") Stdio.ignore ::
        Effect.spawn (some "python") (spawnArgs w) Stdio.inherit w.env ::
        afterSpawn w.events) ∨
    (w.execSync (versionCommand "python3") = false ∧
      w.execSync (versionCommand "python") = false ∧ selected w = none ∧
      run w = [Effect.execSync (versionCommand "python3") Stdio.ignore,
        Effect.execSync (versionCommand "python") Stdio.ignore,
        Effect.consoleError notFoundMessage,
        Effect.exit (some 1)]) := by
  rcases Bool.eq_false_or_eq_true (w.execSync (versionCommand "python3")) with h3 | h3
  · exact Or.inl ⟨h3, selected_python3 w h3, by simpa using run_python3 w h3⟩
  · rcases Bool.eq_false_or_eq_true (w.execSync (versionCommand "python")) with h | h
    · exact Or.inr (Or.inl ⟨h3, h, selected_python w h3 h, by simpa using run_python w h3 h⟩)
    · exact Or.inr (Or.inr ⟨h3, h, selected_none w h3 h, run_notFound w h3 h⟩)

/-! ## Observations on what the listeners do -/

theorem probed_afterSpawn (evs : List ChildEvent) : probed (afterSpawn evs) = [] := by
  cases evs with
  | nil => rfl
  | cons ev rest => cases ev <;> rfl

theorem spawns_afterSpawn (evs : List ChildEvent) : spawns (afterSpawn evs) = [] := by
  cases evs with
  | nil => rfl
  | cons ev rest => cases ev <;> rfl

theorem spawn_not_mem_afterSpawn (evs : List ChildEvent) (command : Option String)
    (args : List String) (stdio : Stdio) (env : Env) :
    Effect.spawn command args stdio env ∉ afterSpawn evs := by
  cases evs with
  | nil => simp [afterSpawn]
  | cons ev rest => cases ev <;> simp [afterSpawn, handle, onClose, onError]

theorem eraseEnv_afterSpawn (evs : List ChildEvent) :
    (afterSpawn evs).map eraseEnv = afterSpawn evs := by
  cases evs with
  | nil => rfl
  | cons ev rest => cases ev <;> rfl

theorem spawnFailureMessage_ne_notFound (message : String) :
    spawnFailureMessage message ≠ notFoundMessage := by
  intro h
  have h1 := congrArg (fun s => s.data.head?) h
  simp [spawnFailureMessage, notFoundMessage, String.data_append] at h1

theorem notFound_not_mem_afterSpawn (evs : List ChildEvent) :
    Effect.consoleError notFoundMessage ∉ afterSpawn evs := by
  cases evs with
  | nil => simp [afterSpawn]
  | cons ev rest =>
    cases ev with
    | close code signal => simp [afterSpawn, handle, onClose]
    | error message =>
      have hne := spawnFailureMessage_ne_notFound message
      simp [afterSpawn, handle, onError, Ne.symm hne]

theorem versionCommand_python3 : versionCommand "python3" = "python3 --version" := by
  decide

theorem versionCommand_python : versionCommand "python" = "python --version" := by
  decide

theorem uptoFirst_subset (ok : String → Bool) (cmds : List String) :
    ∀ cmd ∈ uptoFirst ok cmds, cmd ∈ cmds := by
  induction cmds with
  | nil => intro cmd h; simp [uptoFirst] at h
  | cons c rest ih =>
    intro cmd h
    by_cases hc : ok c = true
    · simp [uptoFirst, hc] at h
      simp [h]
    · simp [uptoFirst, hc] at h
      rcases h with h | h
      · simp [h]
      · exact List.mem_cons_of_mem _ (ih cmd h)

/-- The probes of a run are those of the probe loop. -/
theorem probed_run (w : World) :
    probed (run w) =
      (uptoFirst (fun cmd => w.execSync (versionCommand cmd)) pythonCmds).map versionCommand := by
  rcases run_cases w with ⟨h3, _, hr⟩ | ⟨h3, h, _, hr⟩ | ⟨h3, h, _, hr⟩
  · simp [hr, probed, probed_afterSpawn, pythonCmds, uptoFirst, h3]
  · simp [hr, probed, probed_afterSpawn, pythonCmds, uptoFirst, h3, h]
  · simp [hr, probed, pythonCmds, uptoFirst, h3, h]

/-! ## The claims -/

/-- C1 (interpreter selection): for every assignment of probe outcomes, the
selected interpreter is the first candidate of `['python3', 'python']` whose
`<cmd> --version` probe succeeds; `python3` is selected exactly when its probe
succeeds, `python` exactly when the `python3` probe fails and the `python`
probe succeeds, and the selected candidate is the command that is spawned. -/
theorem interpreter_selection (w : World) :
    selected w = pythonCmds.find? (fun cmd => w.execSync (versionCommand cmd)) ∧
    (selected w = some "python3" ↔ w.execSync (versionCommand "python3") = true) ∧
    (selected w = some "python" ↔
      w.execSync (versionCommand "python3") = false ∧
        w.execSync (versionCommand "python") = true) ∧
    (∀ cmd, selected w = some cmd →
      spawns (run w) = [Effect.spawn (some cmd) (spawnArgs w) Stdio.inherit w.env]) := by
  refine ⟨probeLoop_fst w.execSync pythonCmds, ?_, ?_, ?_⟩
  · rcases run_cases w with ⟨h3, hs, _⟩ | ⟨h3, _, hs, _⟩ | ⟨h3, _, hs, _⟩ <;> simp [hs, h3]
  · rcases run_cases w with ⟨h3, hs, _⟩ | ⟨h3, h, hs, _⟩ | ⟨h3, h, hs, _⟩
    · simp [hs, h3]
    · simp [hs, h3, h]
    · simp [hs, h3, h]
  · intro cmd hcmd
    rcases run_cases w with ⟨_, hs, hr⟩ | ⟨_, _, hs, hr⟩ | ⟨_, _, hs, _⟩
    · rw [hs] at hcmd
      cases hcmd
      simp [hr, spawns, spawns_afterSpawn]
    · rw [hs] at hcmd
      cases hcmd
      simp [hr, spawns, spawns_afterSpawn]
    · rw [hs] at hcmd
      cases hcmd

/-- C2 (exit relay): when an interpreter was selected and the first event of
the child is `close` with an integer code `c`, `0 ≤ c ≤ 255`, the launcher
calls `process.exit(c)` and its exit status is exactly `c`. -/
theorem exit_relay (w : World) (c : Int) (signal : Option String) (later : List ChildEvent)
    (hsel : selected w ≠ none)
    (hev : w.events = ChildEvent.close (some c) signal :: later)
    (h0 : 0 ≤ c) (h255 : c ≤ 255) :
    exitCall (run w) = some (some c) ∧
    (exitStatus (run w)).map Int.ofNat = some c := by
  have hc : ((c % 256).toNat : Int) = c := by
    rw [Int.toNat_of_nonneg (Int.emod_nonneg c (by norm_num))]
    exact Int.emod_eq_of_lt h0 (by omega)
  rcases run_cases w with ⟨_, _, hr⟩ | ⟨_, _, _, hr⟩ | ⟨_, _, hs, _⟩
  · simp [hr, hev, afterSpawn, handle, onClose, exitCall, exitStatus, exitStatusOf, hc]
  · simp [hr, hev, afterSpawn, handle, onClose, exitCall, exitStatus, exitStatusOf, hc]
  · exact absurd hs hsel

/-- C3 (argument forwarding): when an interpreter was selected, the one `spawn`
call receives the server path followed by `argv` without its first two
elements; for `argv = [program, scriptPath] ++ passed` that is exactly
`serverPath :: passed`, so `["--flag", "value"]` gives
`[serverPath, "--flag", "value"]` and no passed argument gives `[serverPath]`. -/
theorem argument_forwarding (w : World) (hsel : selected w ≠ none) :
    spawns (run w) =
      [Effect.spawn (selected w) (w.serverPath :: w.argv.drop 2) Stdio.inherit w.env] ∧
    (∀ program scriptPath passed, w.argv = program :: scriptPath :: passed →
      spawns (run w) =
        [Effect.spawn (selected w) (w.serverPath :: passed) Stdio.inherit w.env]) ∧
    (∀ program scriptPath, w.argv = [program, scriptPath, "--flag", "value"] →
      spawns (run w) =
        [Effect.spawn (selected w) [w.serverPath, "--flag", "value"] Stdio.inherit w.env]) ∧
    (∀ program scriptPath, w.argv = [program, scriptPath] →
      spawns (run w) = [Effect.spawn (selected w) [w.serverPath] Stdio.inherit w.env]) := by
  have key : spawns (run w) =
      [Effect.spawn (selected w) (w.serverPath :: w.argv.drop 2) Stdio.inherit w.env] := by
    rcases run_cases w with ⟨_, hs, hr⟩ | ⟨_, _, hs, hr⟩ | ⟨_, _, hs, _⟩
    · simp [hr, hs, spawns, spawns_afterSpawn, spawnArgs]
    · simp [hr, hs, spawns, spawns_afterSpawn, spawnArgs]
    · exact absurd hs hsel
  refine ⟨key, ?_, ?_, ?_⟩
  · intro program scriptPath passed hargv
    simpa [hargv] using key
  · intro program scriptPath hargv
    simpa [hargv] using key
  · intro program scriptPath hargv
    simpa [hargv] using key

/-- C4 (interpreter not found): the launcher writes
"Error: Python not found. Please install Python 3.12 or later." to the error
stream and exits with status 1 if and only if the probe fails for every
candidate; in that case this is all it writes, the `process.exit` argument is
`1` and nothing is spawned. -/
theorem interpreter_not_found (w : World) :
    ((∀ cmd ∈ pythonCmds, w.execSync (versionCommand cmd) = false) ↔
      (Effect.consoleError notFoundMessage ∈ run w ∧ exitStatus (run w) = some 1)) ∧
    ((∀ cmd ∈ pythonCmds, w.execSync (versionCommand cmd) = false) →
      stderrLines (run w) = [notFoundMessage] ∧ exitCall (run w) = some (some 1) ∧
        spawns (run w) = []) := by
  rcases run_cases w with ⟨h3, _, hr⟩ | ⟨h3, h, _, hr⟩ | ⟨h3, h, _, hr⟩
  · have hno := notFound_not_mem_afterSpawn w.events
    simp [hr, pythonCmds, h3, hno]
  · have hno := notFound_not_mem_afterSpawn w.events
    simp [hr, pythonCmds, h3, h, hno]
  · simp [hr, pythonCmds, h3, h, stderrLines, exitCall, exitStatus, exitStatusOf, spawns]

/-- C5 (spawn failure): when an interpreter was selected and the first event of
the child is `error` with message `m`, the launcher exits with status 1 and the
one text it writes to the error stream contains `m`. -/
theorem spawn_failure (w : World) (message : String) (later : List ChildEvent)
    (hsel : selected w ≠ none)
    (hev : w.events = ChildEvent.error message :: later) :
    exitStatus (run w) = some 1 ∧
    stderrLines (run w) = [spawnFailureMessage message] ∧
    containsText (spawnFailureMessage message) message := by
  have hsub : containsText (spawnFailureMessage message) message :=
    ⟨"Failed to start python process: ".data, [], by
      simp [spawnFailureMessage, String.data_append]⟩
  rcases run_cases w with ⟨_, _, hr⟩ | ⟨_, _, _, hr⟩ | ⟨_, _, hs, _⟩
  · exact ⟨by simp [hr, hev, afterSpawn, handle, onError, exitCall, exitStatus, exitStatusOf],
      by simp [hr, hev, afterSpawn, handle, onError, stderrLines], hsub⟩
  · exact ⟨by simp [hr, hev, afterSpawn, handle, onError, exitCall, exitStatus, exitStatusOf],
      by simp [hr, hev, afterSpawn, handle, onError, stderrLines], hsub⟩
  · exact absurd hs hsel

/-- C6 (short-circuit probing): the commands probed are, in order, the
version commands of the candidates up to and including the first one whose
probe succeeds, an initial segment of the candidate list; when the `python3`
probe succeeds only `python3` is probed and `python` never is, otherwise both
are probed in list order; no candidate is probed more than once. -/
theorem short_circuit_probing (w : World) :
    probed (run w) =
      (uptoFirst (fun cmd => w.execSync (versionCommand cmd)) pythonCmds).map versionCommand ∧
    probed (run w) <+: pythonCmds.map versionCommand ∧
    (w.execSync (versionCommand "python3") = true →
      probed (run w) = ["python3 --version"] ∧ "python --version" ∉ probed (run w)) ∧
    (w.execSync (versionCommand "python3") = false →
      probed (run w) = ["python3 --version", "python --version"]) ∧
    (∀ cmd ∈ pythonCmds, (probed (run w)).count (versionCommand cmd) ≤ 1) := by
  rcases run_cases w with ⟨h3, _, hr⟩ | ⟨h3, h, _, hr⟩ | ⟨h3, h, _, hr⟩
  · refine ⟨?_, ?_, ?_, ?_, ?_⟩
    · simp [hr, probed, probed_afterSpawn, pythonCmds, uptoFirst, h3]
    · simp [hr, probed, probed_afterSpawn, pythonCmds]
    · intro _
      simp [hr, probed, probed_afterSpawn, versionCommand_python3]
    · intro hf
      rw [h3] at hf
      cases hf
    · simp [hr, probed, probed_afterSpawn, pythonCmds, versionCommand_python3,
        versionCommand_python, List.count_cons]
  · refine ⟨?_, ?_, ?_, ?_, ?_⟩
    · simp [hr, probed, probed_afterSpawn, pythonCmds, uptoFirst, h3, h]
    · simp [hr, probed, probed_afterSpawn, pythonCmds]
    · intro ht
      rw [h3] at ht
      cases ht
    · intro _
      simp [hr, probed, probed_afterSpawn, versionCommand_python3, versionCommand_python]
    · simp [hr, probed, probed_afterSpawn, pythonCmds, versionCommand_python3,
        versionCommand_python, List.count_cons]
  · refine ⟨?_, ?_, ?_, ?_, ?_⟩
    · simp [hr, probed, pythonCmds, uptoFirst, h3, h]
    · simp [hr, probed, pythonCmds]
    · intro ht
      rw [h3] at ht
      cases ht
    · intro _
      simp [hr, probed, versionCommand_python3, versionCommand_python]
    · simp [hr, probed, pythonCmds, versionCommand_python3, versionCommand_python,
        List.count_cons]

/-- C7 (environment and stream pass-through): every `spawn` call of a run has
the selected interpreter as command, `stdio: 'inherit'` and the parent
environment itself as `env`; and two runs that differ only in the environment
select the same interpreter, build the same argument list, exit with the same
status and perform the same effects apart from the environment handed on. -/
theorem env_and_streams_pass_through (w w' : World)
    (hexec : w'.execSync = w.execSync) (hargv : w'.argv = w.argv)
    (hpath : w'.serverPath = w.serverPath) (hevents : w'.events = w.events) :
    (∀ command args stdio env, Effect.spawn command args stdio env ∈ run w →
      command = selected w ∧ stdio = Stdio.inherit ∧ env = w.env) ∧
    selected w' = selected w ∧
    spawnArgs w' = spawnArgs w ∧
    exitStatus (run w') = exitStatus (run w) ∧
    (run w').map eraseEnv = (run w).map eraseEnv := by
  have hsel : selected w' = selected w := by simp [selected, hexec]
  have hargs : spawnArgs w' = spawnArgs w := by simp [spawnArgs, hargv, hpath]
  have herase : (run w').map eraseEnv = (run w).map eraseEnv := by
    rcases run_cases w with ⟨h3, _, hr⟩ | ⟨h3, h, _, hr⟩ | ⟨h3, h, _, hr⟩
    · have h3' : w'.execSync (versionCommand "python3") = true := by rw [hexec]; exact h3
      rcases run_cases w' with ⟨_, _, hr'⟩ | ⟨c3, _, _, _⟩ | ⟨c3, _, _, _⟩
      · simp [hr, hr', eraseEnv, eraseEnv_afterSpawn, hargs, hevents]
      · rw [h3'] at c3
        cases c3
      · rw [h3'] at c3
        cases c3
    · have h3' : w'.execSync (versionCommand "python3") = false := by rw [hexec]; exact h3
      have h' : w'.execSync (versionCommand "python") = true := by rw [hexec]; exact h
      rcases run_cases w' with ⟨c3, _, _⟩ | ⟨_, _, _, hr'⟩ | ⟨_, c, _, _⟩
      · rw [h3'] at c3
        cases c3
      · simp [hr, hr', eraseEnv, eraseEnv_afterSpawn, hargs, hevents]
      · rw [h'] at c
        cases c
    · have h3' : w'.execSync (versionCommand "python3") = false := by rw [hexec]; exact h3
      have h' : w'.execSync (versionCommand "python") = false := by rw [hexec]; exact h
      rcases run_cases w' with ⟨c3, _, _⟩ | ⟨_, c, _, _⟩ | ⟨_, _, _, hr'⟩
      · rw [h3'] at c3
        cases c3
      · rw [h'] at c
        cases c
      · simp [hr, hr']
  have hexit : ∀ t : List Effect, exitCall (t.map eraseEnv) = exitCall t := by
    intro t
    induction t with
    | nil => rfl
    | cons e rest ih => cases e <;> simp [eraseEnv, exitCall, ih]
  refine ⟨?_, hsel, hargs, ?_, herase⟩
  · intro command args stdio env hmem
    rcases run_cases w with ⟨_, hs, hr⟩ | ⟨_, _, hs, hr⟩ | ⟨_, _, _, hr⟩
    · have hno := spawn_not_mem_afterSpawn w.events command args stdio env
      rw [hr] at hmem
      simp [hno] at hmem
      simp [hmem, hs]
    · have hno := spawn_not_mem_afterSpawn w.events command args stdio env
      rw [hr] at hmem
      simp [hno] at hmem
      simp [hmem, hs]
    · rw [hr] at hmem
      simp at hmem
  · rw [exitStatus, exitStatus, ← hexit (run w'), ← hexit (run w), herase]

/-- C8 (signal-terminated child): when an interpreter was selected and the
first event of the child is `close` with code `null`, the launcher hands that
`null` to `process.exit` and its exit status is 0. -/
theorem signal_terminated_child (w : World) (signal : Option String)
    (later : List ChildEvent) (hsel : selected w ≠ none)
    (hev : w.events = ChildEvent.close none signal :: later) :
    exitCall (run w) = some none ∧ exitStatus (run w) = some 0 := by
  rcases run_cases w with ⟨_, _, hr⟩ | ⟨_, _, _, hr⟩ | ⟨_, _, hs, _⟩
  · simp [hr, hev, afterSpawn, handle, onClose, exitCall, exitStatus, exitStatusOf]
  · simp [hr, hev, afterSpawn, handle, onClose, exitCall, exitStatus, exitStatusOf]
  · exact absurd hs hsel

/-- C9 (the executable does not depend on the command line): two runs with the
same probe outcomes, whatever their `argv`, environment, server path and child
events, select the same interpreter and probe the same command strings; a
spawned command is always one of `['python3', 'python']`, every probe command
is `<candidate> --version`, and the first spawn argument is the server path. -/
theorem executable_independent_of_argv (w w' : World)
    (hprobe : ∀ cmd ∈ pythonCmds,
      w'.execSync (versionCommand cmd) = w.execSync (versionCommand cmd)) :
    selected w' = selected w ∧
    probed (run w') = probed (run w) ∧
    (∀ command args stdio env, Effect.spawn command args stdio env ∈ run w →
      (∃ cmd ∈ pythonCmds, command = some cmd) ∧ args.head? = some w.serverPath) ∧
    (∀ command ∈ probed (run w), ∃ cmd ∈ pythonCmds, command = cmd ++ " --version") := by
  have e3 : w'.execSync (versionCommand "python3") = w.execSync (versionCommand "python3") :=
    hprobe "python3" (by simp [pythonCmds])
  have e2 : w'.execSync (versionCommand "python") = w.execSync (versionCommand "python") :=
    hprobe "python" (by simp [pythonCmds])
  have hsel : selected w' = selected w := by
    simp [selected, pythonCmds, probeLoop, e3, e2]
  have hprobed : probed (run w') = probed (run w) := by
    rw [probed_run w', probed_run w]
    simp [pythonCmds, uptoFirst, e3, e2]
  refine ⟨hsel, hprobed, ?_, ?_⟩
  · intro command args stdio env hmem
    rcases run_cases w with ⟨_, _, hr⟩ | ⟨_, _, _, hr⟩ | ⟨_, _, _, hr⟩
    · have hno := spawn_not_mem_afterSpawn w.events command args stdio env
      rw [hr] at hmem
      simp [hno] at hmem
      simp [hmem, pythonCmds, spawnArgs]
    · have hno := spawn_not_mem_afterSpawn w.events command args stdio env
      rw [hr] at hmem
      simp [hno] at hmem
      simp [hmem, pythonCmds, spawnArgs]
    · rw [hr] at hmem
      simp at hmem
  · intro command hmem
    rw [probed_run w] at hmem
    rcases List.mem_map.mp hmem with ⟨cmd, hcmd, rfl⟩
    exact ⟨cmd, uptoFirst_subset _ pythonCmds cmd hcmd, rfl⟩

/-- C10 (a child is spawned exactly when a probe succeeded): a run has exactly
one `spawn` call when some candidate probe succeeds and none when every probe
fails; in the latter case the run ends at the interpreter-not-found exit; and
no run ever calls `spawn` with a `null` command. -/
theorem spawn_iff_probe_succeeded (w : World) :
    ((∃ cmd ∈ pythonCmds, w.execSync (versionCommand cmd) = true) ↔
      (spawns (run w)).length = 1) ∧
    ((∀ cmd ∈ pythonCmds, w.execSync (versionCommand cmd) = false) ↔
      spawns (run w) = []) ∧
    ((∀ cmd ∈ pythonCmds, w.execSync (versionCommand cmd) = false) →
      run w = [Effect.execSync "python3 --version" Stdio.ignore,
        Effect.execSync "python --version" Stdio.ignore,
        Effect.consoleError notFoundMessage,
        Effect.exit (some 1)]) ∧
    (∀ args stdio env, Effect.spawn none args stdio env ∉ run w) := by
  rcases run_cases w with ⟨h3, _, hr⟩ | ⟨h3, h, _, hr⟩ | ⟨h3, h, _, hr⟩
  · refine ⟨?_, ?_, ?_, ?_⟩
    · simp [hr, spawns, spawns_afterSpawn, pythonCmds, h3]
    · simp [hr, spawns, spawns_afterSpawn, pythonCmds, h3]
    · simp [pythonCmds, h3]
    · intro args stdio env
      have hno := spawn_not_mem_afterSpawn w.events none args stdio env
      simp [hr, hno]
  · refine ⟨?_, ?_, ?_, ?_⟩
    · simp [hr, spawns, spawns_afterSpawn, pythonCmds, h]
    · simp [hr, spawns, spawns_afterSpawn, pythonCmds, h]
    · simp [pythonCmds, h]
    · intro args stdio env
      have hno := spawn_not_mem_afterSpawn w.events none args stdio env
      simp [hr, hno]
  · refine ⟨?_, ?_, ?_, ?_⟩
    · simp [hr, spawns, pythonCmds, h3, h]
    · simp [hr, spawns, pythonCmds, h3, h]
    · intro _
      simpa [versionCommand_python3, versionCommand_python] using hr
    · intro args stdio env
      simp [hr]

/-! ## The claims at concrete runs -/

theorem interpreter_selection_witness :
    selected worldPython = some "python" ∧ selected worldSignal = some "python3" ∧
      selected worldNoPython = none :=
  ⟨(interpreter_selection worldPython).2.2.1.mpr ⟨by decide, by decide⟩,
    (interpreter_selection worldSignal).2.1.mpr (by decide), by decide⟩

theorem exit_relay_witness :
    selected worldPython ≠ none ∧
      exitCall (run worldPython) = some (some 3) ∧
      (exitStatus (run worldPython)).map Int.ofNat = some 3 :=
  ⟨by decide, exit_relay worldPython 3 none [] (by decide) rfl (by decide) (by decide)⟩

theorem argument_forwarding_witness :
    selected worldPython ≠ none ∧
      spawns (run worldPython) =
        [Effect.spawn (some "python") ["/opt/mcp/server.py", "--flag", "value"] Stdio.inherit
          [("PATH", "/usr/bin"), ("PGHOST", "db")]] :=
  ⟨by decide, (argument_forwarding worldPython (by decide)).1⟩

theorem interpreter_not_found_witness :
    stderrLines (run worldNoPython) = [notFoundMessage] ∧
      exitCall (run worldNoPython) = some (some 1) ∧ spawns (run worldNoPython) = [] :=
  (interpreter_not_found worldNoPython).2 (by decide)

theorem spawn_failure_witness :
    selected worldSpawnError ≠ none ∧
      exitStatus (run worldSpawnError) = some 1 ∧
      stderrLines (run worldSpawnError) =
        ["Failed to start python process: spawn python3 ENOENT"] :=
  ⟨by decide,
    (spawn_failure worldSpawnError "spawn python3 ENOENT" [ChildEvent.close (some (-2)) none]
      (by decide) rfl).1,
    (spawn_failure worldSpawnError "spawn python3 ENOENT" [ChildEvent.close (some (-2)) none]
      (by decide) rfl).2.1⟩

theorem short_circuit_probing_witness :
    probed (run worldSignal) = ["python3 --version"] ∧
      "python --version" ∉ probed (run worldSignal) :=
  (short_circuit_probing worldSignal).2.2.1 (by decide)

theorem env_and_streams_pass_through_witness :
    worldPythonOtherEnv.env ≠ worldPython.env ∧
      selected worldPythonOtherEnv = selected worldPython ∧
      spawnArgs worldPythonOtherEnv = spawnArgs worldPython ∧
      exitStatus (run worldPythonOtherEnv) = exitStatus (run worldPython) ∧
      (run worldPythonOtherEnv).map eraseEnv = (run worldPython).map eraseEnv :=
  ⟨by decide,
    (env_and_streams_pass_through worldPython worldPythonOtherEnv rfl rfl rfl rfl).2⟩

theorem signal_terminated_child_witness :
    selected worldSignal ≠ none ∧
      exitCall (run worldSignal) = some none ∧ exitStatus (run worldSignal) = some 0 :=
  ⟨by decide, signal_terminated_child worldSignal (some "SIGTERM") [] (by decide) rfl⟩

theorem executable_independent_of_argv_witness :
    worldNoPython.argv ≠ worldSpawnError.argv ∧
      selected (exampleWorld true false ["node", "x", "--python=/tmp/evil"] [] []) =
        selected worldSpawnError ∧
      probed (run (exampleWorld true false ["node", "x", "--python=/tmp/evil"] [] [])) =
        probed (run worldSpawnError) :=
  ⟨by decide,
    (executable_independent_of_argv worldSpawnError
      (exampleWorld true false ["node", "x", "--python=/tmp/evil"] [] [])
      (fun _ _ => rfl)).1,
    (executable_independent_of_argv worldSpawnError
      (exampleWorld true false ["node", "x", "--python=/tmp/evil"] [] [])
      (fun _ _ => rfl)).2.1⟩

theorem spawn_iff_probe_succeeded_witness :
    (spawns (run worldPython)).length = 1 ∧ spawns (run worldNoPython) = [] :=
  ⟨(spawn_iff_probe_succeeded worldPython).1.mp ⟨"python", by decide, by decide⟩,
    (spawn_iff_probe_succeeded worldNoPython).2.1.mp (by decide)⟩

end McpPostgres
